import Mathlib

/-!
Verification of the cloth-simulation core in `src/instances_app.rs`.

The Rust source is shallowly embedded below: `f32` scalars are modelled as
real numbers, `u32` indices and counts as natural numbers, and the GPU-side
objects (buffers, bind groups, host commands) as small inductive types.
Line numbers in comments refer to `src/instances_app.rs`.
-/

/-- `struct Spring` (lines 89-96): `stiffness: f32`, `rest_length: f32`,
`instance_a: u32`, `instance_b: u32`. -/
structure Spring where
  stiffness : ℝ
  rest_length : ℝ
  instance_a : ℕ
  instance_b : ℕ

/-- `generate_structural_springs` (lines 98-132): horizontal and vertical
neighbour springs with stiffness `100.0` and rest length `spacing`. -/
def generate_structural_springs (grid_size : ℕ) (spacing : ℝ) : List Spring :=
  (List.range grid_size).flatMap fun row =>
    (List.range grid_size).flatMap fun col =>
      let current := row * grid_size + col
      -- Horizontal spring
      (if col < grid_size - 1 then
        [{ instance_a := current, instance_b := current + 1,
           rest_length := spacing, stiffness := 100 }] else [])
      -- Vertical spring
      ++ (if row < grid_size - 1 then
        [{ instance_a := current, instance_b := current + grid_size,
           rest_length := spacing, stiffness := 100 }] else [])

/-- `generate_springs` (lines 134-217): structural, shear and bend springs,
emitted per grid cell in source order. -/
noncomputable def generate_springs (grid_size : ℕ) (spacing : ℝ) : List Spring :=
  -- Constants for spring types
  let structural_stiffness : ℝ := 1000
  let shear_stiffness : ℝ := 800
  let bend_stiffness : ℝ := 500
  -- Calculate rest lengths
  let structural_rest := spacing
  let shear_rest := spacing * Real.sqrt 2
  let bend_rest := spacing * 2
  (List.range grid_size).flatMap fun row =>
    (List.range grid_size).flatMap fun col =>
      let current := row * grid_size + col
      -- Structural springs (horizontal and vertical)
      (if col < grid_size - 1 then
        [{ instance_a := current, instance_b := current + 1,
           rest_length := structural_rest, stiffness := structural_stiffness }] else [])
      ++ (if row < grid_size - 1 then
        [{ instance_a := current, instance_b := current + grid_size,
           rest_length := structural_rest, stiffness := structural_stiffness }] else [])
      -- Shear springs (diagonal): down-right, then down-left from the right vertex
      ++ (if row < grid_size - 1 ∧ col < grid_size - 1 then
        [{ instance_a := current, instance_b := current + grid_size + 1,
           rest_length := shear_rest, stiffness := shear_stiffness },
         { instance_a := current + 1, instance_b := current + grid_size,
           rest_length := shear_rest, stiffness := shear_stiffness }] else [])
      -- Bend springs (skip one particle): horizontal, then vertical
      ++ (if col < grid_size - 2 then
        [{ instance_a := current, instance_b := current + 2,
           rest_length := bend_rest, stiffness := bend_stiffness }] else [])
      ++ (if row < grid_size - 2 then
        [{ instance_a := current, instance_b := current + grid_size * 2,
           rest_length := bend_rest, stiffness := bend_stiffness }] else [])

/-- A `vec4<f32>` value, as used by the `position` and `speed` fields of
`struct Instance` (lines 49-54). -/
structure Vec4 where
  x : ℝ
  y : ℝ
  z : ℝ
  w : ℝ

/-- `struct Instance` (lines 49-54): `position: [f32; 4]`, `speed: [f32; 4]`. -/
structure Instance where
  position : Vec4
  speed : Vec4

/-- The instance grid built by `generate_grid` (lines 288-304): row-major,
`position = [(col - cols/2) * spacing, displacement, (row - rows/2) * spacing, 0]`,
`speed = [0, 0, 0, 0]`. -/
noncomputable def generate_grid_instances (rows cols : ℕ) (spacing displacement : ℝ) :
    List Instance :=
  (List.range rows).flatMap fun row =>
    (List.range cols).map fun (col : ℕ) =>
      { position := { x := ((col : ℝ) - (cols : ℝ) / 2) * spacing,
                      y := displacement,
                      z := ((row : ℝ) - (rows : ℝ) / 2) * spacing,
                      w := 0 },
        speed := { x := 0, y := 0, z := 0, w := 0 } }

/-- The horizontal structural spring emitted at cell `(row, col)` (lines 152-160). -/
def spH (N : ℕ) (s : ℝ) (row col : ℕ) : Spring :=
  { instance_a := row * N + col, instance_b := row * N + col + 1,
    rest_length := s, stiffness := 1000 }

/-- The vertical structural spring emitted at cell `(row, col)` (lines 161-169). -/
def spV (N : ℕ) (s : ℝ) (row col : ℕ) : Spring :=
  { instance_a := row * N + col, instance_b := row * N + col + N,
    rest_length := s, stiffness := 1000 }

/-- The down-right shear spring emitted at cell `(row, col)` (lines 173-179). -/
noncomputable def spDR (N : ℕ) (s : ℝ) (row col : ℕ) : Spring :=
  { instance_a := row * N + col, instance_b := row * N + col + N + 1,
    rest_length := s * Real.sqrt 2, stiffness := 800 }

/-- The down-left shear spring emitted at cell `(row, col)` (lines 180-186). -/
noncomputable def spDL (N : ℕ) (s : ℝ) (row col : ℕ) : Spring :=
  { instance_a := row * N + col + 1, instance_b := row * N + col + N,
    rest_length := s * Real.sqrt 2, stiffness := 800 }

/-- The horizontal bend spring emitted at cell `(row, col)` (lines 191-198). -/
def spBH (N : ℕ) (s : ℝ) (row col : ℕ) : Spring :=
  { instance_a := row * N + col, instance_b := row * N + col + 2,
    rest_length := s * 2, stiffness := 500 }

/-- The vertical bend spring emitted at cell `(row, col)` (lines 200-207). -/
def spBV (N : ℕ) (s : ℝ) (row col : ℕ) : Spring :=
  { instance_a := row * N + col, instance_b := row * N + col + N * 2,
    rest_length := s * 2, stiffness := 500 }

/-- `generate_grid` returns both `instances` and `instances_copy` where
`instances_copy = instances.clone()` (lines 306-308); the pair seeds the two
instance buffers (lines 361-376). -/
noncomputable def generate_grid_instance_pair (rows cols : ℕ) (spacing displacement : ℝ) :
    List Instance × List Instance :=
  let instances := generate_grid_instances rows cols spacing displacement
  (instances, instances)

/-! ### List-sum helpers used to count generated springs -/

lemma sum_flatMap_eq {α : Type} (l : List α) (f : α → List ℕ) :
    ((l.flatMap f).sum : ℕ) = (l.map fun x => (f x).sum).sum := by
  induction l with
  | nil => simp
  | cons a t ih => simp [ih]

lemma countP_eq_sum_map_ite (p : Spring → Bool) (l : List Spring) :
    l.countP p = (l.map fun x => if p x then 1 else 0).sum := by
  induction l with
  | nil => simp
  | cons a t ih => rw [List.countP_cons]; simp [ih]; ring

lemma sum_map_add_eq {α : Type} (l : List α) (f g : α → ℕ) :
    (l.map fun x => f x + g x).sum = (l.map f).sum + (l.map g).sum := by
  induction l with
  | nil => simp
  | cons a t ih => simp [ih]; ring

lemma sum_range_ite_eq (n m a : ℕ) :
    ((List.range n).map fun c => if c < m then a else 0).sum = min m n * a := by
  induction n with
  | zero => simp
  | succ k ih =>
      rw [List.range_succ, List.map_append, List.sum_append]
      simp only [List.map_cons, List.map_nil, List.sum_cons, List.sum_nil]
      rcases lt_or_le k m with h | h
      · rw [if_pos h, ih, show min m (k + 1) = min m k + 1 by omega]; ring
      · rw [if_neg (by omega), ih, show min m (k + 1) = min m k by omega]; ring

lemma sum_map_ite_const_eq {α : Type} (l : List α) (P : Prop) [Decidable P] (g : α → ℕ) :
    (l.map fun c => if P then g c else 0).sum = if P then (l.map g).sum else 0 := by
  split <;> simp

lemma sum_map_const_eq {α : Type} (l : List α) (a : ℕ) :
    (l.map fun _ => a).sum = l.length * a := by
  induction l with
  | nil => simp
  | cons x t ih => simp [ih]; ring

/-- Per-cell decomposition of any additive weight of the spring list: the sum
of `f` over `generate_springs` is the double sum over grid cells of the guarded
contributions of the six springs a cell can emit. -/
lemma sum_map_generate_springs (N : ℕ) (s : ℝ) (f : Spring → ℕ) :
    ((generate_springs N s).map f).sum =
      ((List.range N).map fun row => ((List.range N).map fun col =>
        (if col < N - 1 then f (spH N s row col) else 0)
        + (if row < N - 1 then f (spV N s row col) else 0)
        + (if row < N - 1 ∧ col < N - 1 then f (spDR N s row col) + f (spDL N s row col) else 0)
        + (if col < N - 2 then f (spBH N s row col) else 0)
        + (if row < N - 2 then f (spBV N s row col) else 0)).sum).sum := by
  simp only [generate_springs, List.map_flatMap, sum_flatMap_eq]
  refine congrArg List.sum (List.map_congr_left fun row _ => ?_)
  refine congrArg List.sum (List.map_congr_left fun col _ => ?_)
  simp only [List.map_append, List.sum_append, apply_ite (List.map f), apply_ite List.sum,
    List.map_cons, List.map_nil, List.sum_cons, List.sum_nil, spH, spV, spDR, spDL, spBH, spBV,
    Nat.add_zero]

/-- The number of springs in `l` whose stiffness is `v`. The three spring
classes of `generate_springs` carry the pairwise distinct stiffness constants
`1000`, `800` and `500` (lines 138-140), so counting by stiffness counts a
class. -/
noncomputable def countStiffness (v : ℝ) (l : List Spring) : ℕ :=
  l.countP fun sp => decide (sp.stiffness = v)

lemma countStiffness_structural (N : ℕ) (s : ℝ) :
    countStiffness 1000 (generate_springs N s) = 2 * N * (N - 1) := by
  unfold countStiffness
  rw [countP_eq_sum_map_ite, sum_map_generate_springs]
  norm_num [spH, spV, spDR, spDL, spBH, spBV]
  simp only [sum_map_add_eq, sum_range_ite_eq, sum_map_ite_const_eq, sum_map_const_eq,
    List.length_range]
  rw [min_eq_left (Nat.sub_le N 1)]
  ring

lemma countStiffness_shear (N : ℕ) (s : ℝ) :
    countStiffness 800 (generate_springs N s) = 2 * (N - 1) ^ 2 := by
  unfold countStiffness
  rw [countP_eq_sum_map_ite, sum_map_generate_springs]
  norm_num [spH, spV, spDR, spDL, spBH, spBV, ite_and]
  simp only [sum_map_add_eq, sum_range_ite_eq, sum_map_ite_const_eq, sum_map_const_eq,
    List.length_range]
  rw [min_eq_left (Nat.sub_le N 1)]
  ring

lemma countStiffness_bend (N : ℕ) (s : ℝ) :
    countStiffness 500 (generate_springs N s) = 2 * N * (N - 2) := by
  unfold countStiffness
  rw [countP_eq_sum_map_ite, sum_map_generate_springs]
  norm_num [spH, spV, spDR, spDL, spBH, spBV]
  simp only [sum_map_add_eq, sum_range_ite_eq, sum_map_ite_const_eq, sum_map_const_eq,
    List.length_range]
  rw [min_eq_left (Nat.sub_le N 2)]
  ring

lemma length_generate_springs (N : ℕ) (s : ℝ) :
    (generate_springs N s).length = 2 * N * (N - 1) + 2 * (N - 1) ^ 2 + 2 * N * (N - 2) := by
  have h : (generate_springs N s).length = ((generate_springs N s).map fun _ => 1).sum := by
    rw [sum_map_const_eq]; ring
  rw [h, sum_map_generate_springs]
  norm_num [ite_and]
  simp only [sum_map_add_eq, sum_range_ite_eq, sum_map_ite_const_eq, sum_map_const_eq,
    List.length_range]
  rw [min_eq_left (Nat.sub_le N 1), min_eq_left (Nat.sub_le N 2)]
  ring

/-! ### Membership characterization of the generated spring lists -/

lemma mem_ite_singleton {α : Type} {x a : α} {g : Prop} [Decidable g] :
    (x ∈ if g then [a] else []) ↔ g ∧ x = a := by
  by_cases h : g <;> simp [h]

lemma mem_ite_pair {α : Type} {x a b : α} {g : Prop} [Decidable g] :
    (x ∈ if g then [a, b] else []) ↔ g ∧ (x = a ∨ x = b) := by
  by_cases h : g <;> simp [h]

/-- The horizontal spring of `generate_structural_springs` (lines 107-116). -/
def sspH (N : ℕ) (s : ℝ) (row col : ℕ) : Spring :=
  { instance_a := row * N + col, instance_b := row * N + col + 1,
    rest_length := s, stiffness := 100 }

/-- The vertical spring of `generate_structural_springs` (lines 118-127). -/
def sspV (N : ℕ) (s : ℝ) (row col : ℕ) : Spring :=
  { instance_a := row * N + col, instance_b := row * N + col + N,
    rest_length := s, stiffness := 100 }

lemma mem_generate_springs {N : ℕ} {s : ℝ} {sp : Spring} :
    sp ∈ generate_springs N s ↔
      ∃ row, row < N ∧ ∃ col, col < N ∧
        ((col < N - 1 ∧ sp = spH N s row col)
         ∨ (row < N - 1 ∧ sp = spV N s row col)
         ∨ ((row < N - 1 ∧ col < N - 1) ∧ (sp = spDR N s row col ∨ sp = spDL N s row col))
         ∨ (col < N - 2 ∧ sp = spBH N s row col)
         ∨ (row < N - 2 ∧ sp = spBV N s row col)) := by
  simp only [generate_springs, List.mem_flatMap, List.mem_range, List.mem_append,
    mem_ite_singleton, mem_ite_pair, spH, spV, spDR, spDL, spBH, spBV, or_assoc]

lemma mem_generate_structural_springs {N : ℕ} {s : ℝ} {sp : Spring} :
    sp ∈ generate_structural_springs N s ↔
      ∃ row, row < N ∧ ∃ col, col < N ∧
        ((col < N - 1 ∧ sp = sspH N s row col) ∨ (row < N - 1 ∧ sp = sspV N s row col)) := by
  simp only [generate_structural_springs, List.mem_flatMap, List.mem_range, List.mem_append,
    mem_ite_singleton, sspH, sspV]

/-! ### Grid index arithmetic -/

lemma grid_index_lt {N row col : ℕ} (hr : row < N) (hc : col < N) :
    row * N + col < N * N := by
  calc row * N + col < row * N + N := by omega
    _ = (row + 1) * N := by ring
    _ ≤ N * N := Nat.mul_le_mul_right N hr

/-- Row/column coordinates of a flat grid index are unique: if
`row * N + col = row' * N + col'` with both columns in range, the coordinates
agree. -/
lemma grid_cancel {N a a' b b' : ℕ} (hb : b < N) (hb' : b' < N)
    (h : a * N + b = a' * N + b') : a = a' ∧ b = b' := by
  have hN : 0 < N := by omega
  have h1 : (a * N + b) / N = a := by
    rw [mul_comm, Nat.mul_add_div hN, Nat.div_eq_of_lt hb, Nat.add_zero]
  have h2 : (a' * N + b') / N = a' := by
    rw [mul_comm, Nat.mul_add_div hN, Nat.div_eq_of_lt hb', Nat.add_zero]
  have h3 : (a * N + b) % N = b := by
    rw [mul_comm, Nat.mul_add_mod, Nat.mod_eq_of_lt hb]
  have h4 : (a' * N + b') % N = b' := by
    rw [mul_comm, Nat.mul_add_mod, Nat.mod_eq_of_lt hb']
  refine ⟨?_, ?_⟩
  · rw [← h1, ← h2, h]
  · rw [← h3, ← h4, h]

/-! ### Endpoint bounds and orientation of generated springs -/

lemma generate_springs_endpoints {N : ℕ} {s : ℝ} {sp : Spring}
    (h : sp ∈ generate_springs N s) :
    sp.instance_a < N * N ∧ sp.instance_b < N * N ∧ sp.instance_a < sp.instance_b := by
  rw [mem_generate_springs] at h
  obtain ⟨row, hr, col, hc, hcase⟩ := h
  obtain ⟨hg, rfl⟩ | ⟨hg, rfl⟩ | ⟨⟨hg1, hg2⟩, rfl | rfl⟩ | ⟨hg, rfl⟩ | ⟨hg, rfl⟩ := hcase
  · refine ⟨grid_index_lt hr hc, ?_, by simp [spH]⟩
    exact @grid_index_lt N row (col + 1) hr (by omega)
  · refine ⟨grid_index_lt hr hc, ?_, ?_⟩
    · have e : row * N + col + N = (row + 1) * N + col := by ring
      simp only [spV, e]
      exact @grid_index_lt N (row + 1) col (by omega) hc
    · simp only [spV]; omega
  · refine ⟨grid_index_lt hr hc, ?_, ?_⟩
    · have e : row * N + col + N + 1 = (row + 1) * N + (col + 1) := by ring
      simp only [spDR, e]
      exact @grid_index_lt N (row + 1) (col + 1) (by omega) (by omega)
    · simp only [spDR]; omega
  · refine ⟨?_, ?_, ?_⟩
    · exact @grid_index_lt N row (col + 1) hr (by omega)
    · have e : row * N + col + N = (row + 1) * N + col := by ring
      simp only [spDL, e]
      exact @grid_index_lt N (row + 1) col (by omega) hc
    · simp only [spDL]; omega
  · refine ⟨grid_index_lt hr hc, ?_, by simp [spBH]⟩
    exact @grid_index_lt N row (col + 2) hr (by omega)
  · refine ⟨grid_index_lt hr hc, ?_, ?_⟩
    · have e : row * N + col + N * 2 = (row + 2) * N + col := by ring
      simp only [spBV, e]
      exact @grid_index_lt N (row + 2) col (by omega) hc
    · simp only [spBV]; omega

lemma generate_structural_springs_ab {N : ℕ} {s : ℝ} {sp : Spring}
    (h : sp ∈ generate_structural_springs N s) : sp.instance_a < sp.instance_b := by
  rw [mem_generate_structural_springs] at h
  obtain ⟨row, hr, col, hc, hcase⟩ := h
  obtain ⟨hg, rfl⟩ | ⟨hg, rfl⟩ := hcase
  · simp [sspH]
  · simp only [sspV]; omega

lemma generate_springs_classes {N : ℕ} {s : ℝ} {sp : Spring}
    (h : sp ∈ generate_springs N s) :
    (sp.stiffness = 1000 ∧ sp.rest_length = s)
    ∨ (sp.stiffness = 800 ∧ sp.rest_length = s * Real.sqrt 2)
    ∨ (sp.stiffness = 500 ∧ sp.rest_length = s * 2) := by
  rw [mem_generate_springs] at h
  obtain ⟨row, hr, col, hc, hcase⟩ := h
  obtain ⟨hg, rfl⟩ | ⟨hg, rfl⟩ | ⟨⟨hg1, hg2⟩, rfl | rfl⟩ | ⟨hg, rfl⟩ | ⟨hg, rfl⟩ := hcase <;>
    simp [spH, spV, spDR, spDL, spBH, spBV]

/-! ### The undirected-edge list is duplicate-free -/

/-- The list of `(instance_a, instance_b)` endpoint pairs of a spring list. -/
def springPairs (l : List Spring) : List (ℕ × ℕ) :=
  l.map fun sp => (sp.instance_a, sp.instance_b)

/-- The endpoint pairs emitted at one cell of `generate_springs`, with the flat
indices rewritten into canonical `row * N + col` form. -/
def cellPairsC (N row col : ℕ) : List (ℕ × ℕ) :=
  (if col + 1 < N then [(row * N + col, row * N + (col + 1))] else [])
  ++ (if row + 1 < N then [(row * N + col, (row + 1) * N + col)] else [])
  ++ (if row + 1 < N ∧ col + 1 < N then
        [(row * N + col, (row + 1) * N + (col + 1)),
         (row * N + (col + 1), (row + 1) * N + col)] else [])
  ++ (if col + 2 < N then [(row * N + col, row * N + (col + 2))] else [])
  ++ (if row + 2 < N then [(row * N + col, (row + 2) * N + col)] else [])

lemma ite_singleton_congr {α : Type} {P Q : Prop} [Decidable P] [Decidable Q] {x y : α}
    (h : P ↔ Q) (hx : x = y) : (if P then [x] else []) = (if Q then [y] else []) := by
  subst hx; exact if_congr h rfl rfl

lemma springPairs_generate_springs (N : ℕ) (s : ℝ) :
    springPairs (generate_springs N s) =
      (List.range N).flatMap fun row => (List.range N).flatMap fun col =>
        cellPairsC N row col := by
  simp only [springPairs, generate_springs, List.map_flatMap]
  refine congrArg (List.range N).flatMap (funext fun row => ?_)
  refine congrArg (List.range N).flatMap (funext fun col => ?_)
  simp only [List.map_append, apply_ite (List.map fun sp : Spring =>
    (sp.instance_a, sp.instance_b)), List.map_cons, List.map_nil]
  have h1 : (if col < N - 1 then [(row * N + col, row * N + col + 1)] else [])
      = (if col + 1 < N then [(row * N + col, row * N + (col + 1))] else []) :=
    ite_singleton_congr (by omega) (by rw [Prod.mk.injEq]; exact ⟨rfl, by ring⟩)
  have h2 : (if row < N - 1 then [(row * N + col, row * N + col + N)] else [])
      = (if row + 1 < N then [(row * N + col, (row + 1) * N + col)] else []) :=
    ite_singleton_congr (by omega) (by rw [Prod.mk.injEq]; exact ⟨rfl, by ring⟩)
  have h3 : (if row < N - 1 ∧ col < N - 1 then
        [(row * N + col, row * N + col + N + 1), (row * N + col + 1, row * N + col + N)]
      else [])
      = (if row + 1 < N ∧ col + 1 < N then
        [(row * N + col, (row + 1) * N + (col + 1)),
         (row * N + (col + 1), (row + 1) * N + col)] else []) := by
    refine if_congr (by omega) ?_ rfl
    rw [List.cons.injEq, List.cons.injEq, Prod.mk.injEq, Prod.mk.injEq]
    exact ⟨⟨rfl, by ring⟩, ⟨by ring, by ring⟩, rfl⟩
  have h4 : (if col < N - 2 then [(row * N + col, row * N + col + 2)] else [])
      = (if col + 2 < N then [(row * N + col, row * N + (col + 2))] else []) :=
    ite_singleton_congr (by omega) (by rw [Prod.mk.injEq]; exact ⟨rfl, by ring⟩)
  have h5 : (if row < N - 2 then [(row * N + col, row * N + col + N * 2)] else [])
      = (if row + 2 < N then [(row * N + col, (row + 2) * N + col)] else []) :=
    ite_singleton_congr (by omega) (by rw [Prod.mk.injEq]; exact ⟨rfl, by ring⟩)
  rw [cellPairsC, h1, h2, h3, h4, h5]

lemma mem_cellPairsC {N row col : ℕ} {p : ℕ × ℕ} :
    p ∈ cellPairsC N row col ↔
      (col + 1 < N ∧ p = (row * N + col, row * N + (col + 1)))
      ∨ (row + 1 < N ∧ p = (row * N + col, (row + 1) * N + col))
      ∨ ((row + 1 < N ∧ col + 1 < N) ∧
          (p = (row * N + col, (row + 1) * N + (col + 1))
           ∨ p = (row * N + (col + 1), (row + 1) * N + col)))
      ∨ (col + 2 < N ∧ p = (row * N + col, row * N + (col + 2)))
      ∨ (row + 2 < N ∧ p = (row * N + col, (row + 2) * N + col)) := by
  simp only [cellPairsC, List.mem_append, mem_ite_singleton, mem_ite_pair, or_assoc]

lemma cellPairsC_nodup (N row col : ℕ) : (cellPairsC N row col).Nodup := by
  have ha : (row + 1) * N = row * N + N := by ring
  have hb : (row + 2) * N = row * N + N + N := by ring
  unfold cellPairsC
  by_cases h1 : col + 1 < N <;> by_cases h2 : row + 1 < N <;>
    by_cases h3 : col + 2 < N <;> by_cases h4 : row + 2 < N <;>
      simp [h1, h2, h3, h4, Prod.mk.injEq, List.nodup_cons] <;> omega

lemma cellPairsC_disjoint {N row col row' col' : ℕ} (hc : col < N) (hc' : col' < N)
    (hne : ¬(row = row' ∧ col = col')) :
    (cellPairsC N row col).Disjoint (cellPairsC N row' col') := by
  intro p hp hp'
  rw [mem_cellPairsC] at hp hp'
  obtain ⟨hg, rfl⟩ | ⟨hg, rfl⟩ | ⟨⟨hga, hgb⟩, rfl | rfl⟩ | ⟨hg, rfl⟩ | ⟨hg, rfl⟩ := hp <;>
    obtain ⟨hg', he⟩ | ⟨hg', he⟩ | ⟨⟨hga', hgb'⟩, he | he⟩ | ⟨hg', he⟩ | ⟨hg', he⟩ := hp' <;>
      (rw [Prod.mk.injEq] at he
       obtain ⟨e1, e2⟩ := he
       obtain ⟨q1, q2⟩ := grid_cancel (by omega) (by omega) e1
       obtain ⟨q3, q4⟩ := grid_cancel (by omega) (by omega) e2
       omega)

/-- A grid-shaped double `flatMap` of pairwise-disjoint duplicate-free blocks
is duplicate-free. -/
lemma nodup_grid_flatMap (N : ℕ) (g : ℕ → ℕ → List (ℕ × ℕ))
    (hnd : ∀ r c, (g r c).Nodup)
    (hdisj : ∀ r c r' c', c < N → c' < N → ¬(r = r' ∧ c = c') →
      (g r c).Disjoint (g r' c')) :
    ((List.range N).flatMap fun row => (List.range N).flatMap fun col => g row col).Nodup := by
  rw [List.nodup_flatMap]
  constructor
  · intro row _
    rw [List.nodup_flatMap]
    refine ⟨fun col _ => hnd row col, ?_⟩
    refine List.Pairwise.imp_of_mem ?_ (List.pairwise_lt_range N)
    intro c c' hmem hmem' hlt
    exact hdisj row c row c' (List.mem_range.mp hmem) (List.mem_range.mp hmem')
      (by omega)
  · refine List.Pairwise.imp_of_mem ?_ (List.pairwise_lt_range N)
    intro r r' _ _ hlt
    intro p hp hp'
    rw [List.mem_flatMap] at hp hp'
    obtain ⟨c, hcmem, hp⟩ := hp
    obtain ⟨c', hcmem', hp'⟩ := hp'
    exact hdisj r c r' c' (List.mem_range.mp hcmem) (List.mem_range.mp hcmem')
      (by omega) hp hp'

lemma springPairs_generate_springs_nodup (N : ℕ) (s : ℝ) :
    (springPairs (generate_springs N s)).Nodup := by
  rw [springPairs_generate_springs]
  exact nodup_grid_flatMap N (cellPairsC N) (cellPairsC_nodup N)
    (fun r c r' c' hc hc' hne => cellPairsC_disjoint hc hc' hne)

/-- The endpoint pairs emitted at one cell of `generate_structural_springs`,
in canonical form: exactly the first two chunks of `cellPairsC`. -/
def cellPairsS (N row col : ℕ) : List (ℕ × ℕ) :=
  (if col + 1 < N then [(row * N + col, row * N + (col + 1))] else [])
  ++ (if row + 1 < N then [(row * N + col, (row + 1) * N + col)] else [])

lemma springPairs_generate_structural_springs (N : ℕ) (s : ℝ) :
    springPairs (generate_structural_springs N s) =
      (List.range N).flatMap fun row => (List.range N).flatMap fun col =>
        cellPairsS N row col := by
  simp only [springPairs, generate_structural_springs, List.map_flatMap]
  refine congrArg (List.range N).flatMap (funext fun row => ?_)
  refine congrArg (List.range N).flatMap (funext fun col => ?_)
  simp only [List.map_append, apply_ite (List.map fun sp : Spring =>
    (sp.instance_a, sp.instance_b)), List.map_cons, List.map_nil]
  have h1 : (if col < N - 1 then [(row * N + col, row * N + col + 1)] else [])
      = (if col + 1 < N then [(row * N + col, row * N + (col + 1))] else []) :=
    ite_singleton_congr (by omega) (by rw [Prod.mk.injEq]; exact ⟨rfl, by ring⟩)
  have h2 : (if row < N - 1 then [(row * N + col, row * N + col + N)] else [])
      = (if row + 1 < N then [(row * N + col, (row + 1) * N + col)] else []) :=
    ite_singleton_congr (by omega) (by rw [Prod.mk.injEq]; exact ⟨rfl, by ring⟩)
  rw [cellPairsS, h1, h2]

lemma cellPairsS_sublist (N row col : ℕ) :
    List.Sublist (cellPairsS N row col) (cellPairsC N row col) := by
  unfold cellPairsS cellPairsC
  exact ((List.sublist_append_left _ _).trans (List.sublist_append_left _ _)).trans
    (List.sublist_append_left _ _)

lemma springPairs_generate_structural_springs_nodup (N : ℕ) (s : ℝ) :
    (springPairs (generate_structural_springs N s)).Nodup := by
  rw [springPairs_generate_structural_springs]
  refine nodup_grid_flatMap N (cellPairsS N)
    (fun r c => List.Nodup.sublist (cellPairsS_sublist N r c) (cellPairsC_nodup N r c))
    (fun r c r' c' hc hc' hne p hp hp' => ?_)
  exact cellPairsC_disjoint hc hc' hne ((cellPairsS_sublist N r c).subset hp)
    ((cellPairsS_sublist N r' c').subset hp')

/-! ### Properties of the generated instance grid -/

lemma length_generate_grid_instances (rows cols : ℕ) (s d : ℝ) :
    (generate_grid_instances rows cols s d).length = rows * cols := by
  unfold generate_grid_instances
  rw [List.length_flatMap]
  simp only [Function.comp_def, List.length_map, List.length_range]
  rw [sum_map_const_eq, List.length_range]

lemma mem_generate_grid_instances {rows cols : ℕ} {s d : ℝ} {p : Instance} :
    p ∈ generate_grid_instances rows cols s d ↔
      ∃ row, row < rows ∧ ∃ col, col < cols ∧
        p = { position := { x := ((col : ℝ) - (cols : ℝ) / 2) * s, y := d,
                            z := ((row : ℝ) - (rows : ℝ) / 2) * s, w := 0 },
              speed := { x := 0, y := 0, z := 0, w := 0 } } := by
  unfold generate_grid_instances
  rw [List.mem_flatMap]
  constructor
  · rintro ⟨row, hrow, hp⟩
    rw [List.mem_map] at hp
    obtain ⟨col, hcol, rfl⟩ := hp
    exact ⟨row, List.mem_range.mp hrow, col, List.mem_range.mp hcol, rfl⟩
  · rintro ⟨row, hrow, col, hcol, rfl⟩
    exact ⟨row, List.mem_range.mpr hrow, List.mem_map.mpr ⟨col, List.mem_range.mpr hcol, rfl⟩⟩

lemma sum_flatMap_real {α : Type} (l : List α) (f : α → List ℝ) :
    (l.flatMap f).sum = (l.map fun x => (f x).sum).sum := by
  induction l with
  | nil => simp
  | cons a t ih => simp [ih]

lemma sum_map_const_real {α : Type} (l : List α) (a : ℝ) :
    (l.map fun _ => a).sum = l.length * a := by
  induction l with
  | nil => simp
  | cons x t ih => simp [ih]; ring

lemma list_range_map_sum_real (n : ℕ) (f : ℕ → ℝ) :
    ((List.range n).map f).sum = ∑ i ∈ Finset.range n, f i := by
  induction n with
  | zero => simp
  | succ k ih =>
      rw [List.range_succ, List.map_append, List.sum_append, Finset.sum_range_succ, ih]
      simp

lemma gauss_real (n : ℕ) :
    (∑ i ∈ Finset.range n, (i : ℝ)) = (n : ℝ) * ((n : ℝ) - 1) / 2 := by
  induction n with
  | zero => simp
  | succ k ih =>
      rw [Finset.sum_range_succ, ih]
      push_cast
      ring

lemma inner_x_sum (n : ℕ) (s : ℝ) :
    (∑ i ∈ Finset.range n, ((i : ℝ) - (n : ℝ) / 2) * s) = (n : ℝ) * (-(s / 2)) := by
  simp only [sub_mul]
  rw [Finset.sum_sub_distrib, ← Finset.sum_mul, gauss_real]
  rw [Finset.sum_const, Finset.card_range, nsmul_eq_mul]
  rcases Nat.eq_zero_or_pos n with rfl | hn
  · simp
  · field_simp
    ring

/-- The sum of the x coordinates of the generated grid: the grid's centroid
sits at `-s/2` on the x axis, not at the origin. -/
lemma x_sum_generate_grid (rows cols : ℕ) (s d : ℝ) :
    ((generate_grid_instances rows cols s d).map fun p => p.position.x).sum
      = (rows : ℝ) * ((cols : ℝ) * (-(s / 2))) := by
  unfold generate_grid_instances
  rw [List.map_flatMap, sum_flatMap_real]
  have hinner : ∀ row : ℕ,
      ((((List.range cols).map fun (col : ℕ) =>
        ({ position := { x := ((col : ℝ) - (cols : ℝ) / 2) * s, y := d,
                         z := ((row : ℝ) - (rows : ℝ) / 2) * s, w := 0 },
           speed := { x := 0, y := 0, z := 0, w := 0 } } : Instance)).map
        fun p => p.position.x)).sum = (cols : ℝ) * (-(s / 2)) := by
    intro row
    rw [List.map_map]
    have h : ((fun p : Instance => p.position.x) ∘ fun (col : ℕ) =>
        ({ position := { x := ((col : ℝ) - (cols : ℝ) / 2) * s, y := d,
                         z := ((row : ℝ) - (rows : ℝ) / 2) * s, w := 0 },
           speed := { x := 0, y := 0, z := 0, w := 0 } } : Instance))
        = fun col : ℕ => ((col : ℝ) - (cols : ℝ) / 2) * s := rfl
    rw [h, list_range_map_sum_real, inner_x_sum]
  simp only [hinner, sum_map_const_real, List.length_range]

/-! ### Double-buffer state (instance buffers and bind groups) -/

/-- The two instance buffers, `"Instance Buffer Ping"` and
`"Instance Buffer Pong"` (lines 361-376). -/
inductive Buf
  | ping
  | pong
deriving DecidableEq

/-- A GPU resource bindable in the compute bind group (lines 621-679). -/
inductive Res
  | instanceRes : Buf → Res
  | springRes
  | simParamsRes
  | debugRes
deriving DecidableEq

/-- A compute bind group: bindings 0-4 as created in lines 621-679. -/
structure BindGroup where
  binding0 : Res
  binding1 : Res
  binding2 : Res
  binding3 : Res
  binding4 : Res
deriving DecidableEq

/-- The bind group with instance buffer `b0` at binding 0 and `b1` at
binding 1; bindings 2-4 are always the spring, simulation-parameter and debug
buffers (lines 627-648 and 655-677). -/
def mkBindGroup (b0 b1 : Buf) : BindGroup :=
  { binding0 := Res.instanceRes b0, binding1 := Res.instanceRes b1,
    binding2 := Res.springRes, binding3 := Res.simParamsRes, binding4 := Res.debugRes }

/-- The buffer-role state of `InstanceApp`: the `instance_buffer` array and the
`bind_group` array, both of length 2 (lines 236, 245). -/
structure GpuState where
  instance_buffer : Buf × Buf
  bind_group : BindGroup × BindGroup
deriving DecidableEq

/-- The state established by `InstanceApp::new`: `instance_buffer = [Ping, Pong]`
(lines 361-376) and `bind_group = [Bind Group Ping, Bind Group Pong]`
(lines 621-679). -/
def initGpuState : GpuState :=
  { instance_buffer := (Buf.ping, Buf.pong),
    bind_group := (mkBindGroup Buf.ping Buf.pong, mkBindGroup Buf.pong Buf.ping) }

/-- The post-dispatch swap of a tick: `self.instance_buffer.swap(0, 1);
self.bind_group.swap(0, 1)` (lines 820-821). -/
def tickSwap (s : GpuState) : GpuState :=
  { instance_buffer := (s.instance_buffer.2, s.instance_buffer.1),
    bind_group := (s.bind_group.2, s.bind_group.1) }

/-- The buffer bound as the render instance stream: `instance_buffer[0]`
(line 834). -/
def renderSource (s : GpuState) : Buf := s.instance_buffer.1

/-- Modelled from the spec: `compute.wgsl` is not under `src/`, so the kernel's
choice of read and write bindings is taken from spec §4.3: the dispatch uses
`bind_group[0]` (line 782), the kernel reads the current array — binding 0 —
and writes the complete next array — binding 1. -/
def kernelReadRes (s : GpuState) : Res := s.bind_group.1.binding0

/-- Modelled from the spec: the kernel's write target is binding 1 of the
bind group used by the dispatch (`bind_group[0]`, line 782); see
`kernelReadRes`. -/
def kernelWriteRes (s : GpuState) : Res := s.bind_group.1.binding1

/-- Well-formedness of the buffer-role state: the two bind groups pair the two
instance buffers in opposite orders, and the two buffers are distinct. `new`
establishes this and the tick swap preserves it. -/
def WFGpu (s : GpuState) : Prop :=
  s.bind_group.1 = mkBindGroup s.instance_buffer.1 s.instance_buffer.2
  ∧ s.bind_group.2 = mkBindGroup s.instance_buffer.2 s.instance_buffer.1
  ∧ s.instance_buffer.1 ≠ s.instance_buffer.2

instance : DecidablePred WFGpu := fun s => by
  unfold WFGpu; infer_instance

/-! ### Step scheduler -/

/-- Scheduler state: `last_generation: Instant` (line 244), modelled as a
rational timestamp. -/
structure SchedulerState where
  last_generation : ℚ

/-- One call of `update` at wall-clock time `now`, seen by the scheduler:
the tick body runs iff `last_generation + generation_duration < now`
(line 770), and then `last_generation` is reset to now (line 817). Returns
the new state and whether a tick (one kernel dispatch) was performed. -/
def updateStep (gd : ℚ) (s : SchedulerState) (now : ℚ) : SchedulerState × Bool :=
  if s.last_generation + gd < now then ({ last_generation := now }, true) else (s, false)

/-- The times at which a sequence of `update` calls actually dispatches the
kernel, obtained by folding `updateStep`. -/
def dispatchTimes (gd : ℚ) (s : SchedulerState) : List ℚ → List ℚ
  | [] => []
  | now :: later =>
      if (updateStep gd s now).2 then now :: dispatchTimes gd (updateStep gd s now).1 later
      else dispatchTimes gd (updateStep gd s now).1 later

lemma dispatchTimes_chain (gd : ℚ) (s : SchedulerState) (calls : List ℚ) :
    List.Chain (fun a b => a + gd < b) s.last_generation (dispatchTimes gd s calls) := by
  induction calls generalizing s with
  | nil => exact List.Chain.nil
  | cons now later ih =>
      unfold dispatchTimes updateStep
      by_cases h : s.last_generation + gd < now
      · simp only [h, if_pos, if_true]
        exact List.Chain.cons h (ih { last_generation := now })
      · simp only [h, if_neg, if_false, ite_false]
        exact ih s

lemma dispatchTimes_sublist (gd : ℚ) (s : SchedulerState) (calls : List ℚ) :
    List.Sublist (dispatchTimes gd s calls) calls := by
  induction calls generalizing s with
  | nil => simp [dispatchTimes]
  | cons now later ih =>
      unfold dispatchTimes
      split
      · exact List.Sublist.cons₂ now (ih _)
      · exact List.Sublist.cons now (ih _)

/-! ### Host-side operations of one tick of `update` -/

/-- A host-side operation issued by `update` (lines 769-823). -/
inductive HostOp
  | createCommandEncoder
  | beginComputePass
  | setComputePipeline
  | setComputeBindGroup
  | dispatchWorkgroups (x y z : ℕ)
  | createDebugStagingBuffer
  | copyDebugToStaging
  | submitQueue
  | mapAsyncRead
  | pollWait
  | readMappedDebugData
  | recordLastGeneration
  | swapInstanceBuffers
  | swapBindGroups
deriving DecidableEq

/-- `WORKGROUP_SIZE` (line 312). -/
def WORKGROUP_SIZE : ℕ := 64

/-- `GRID_SIZE` (line 313). -/
def GRID_SIZE : ℕ := 64

/-- The host operations performed by the tick body of `update` (lines 770-821),
in order. `HostOp.pollWait` is `context.device().poll(wgpu::Maintain::Wait)`
(line 808), issued unconditionally on every tick. -/
def tickOps (num_instances : ℕ) : List HostOp :=
  [HostOp.createCommandEncoder, HostOp.beginComputePass, HostOp.setComputePipeline,
   HostOp.setComputeBindGroup,
   HostOp.dispatchWorkgroups (num_instances / WORKGROUP_SIZE) 1 1,
   HostOp.createDebugStagingBuffer, HostOp.copyDebugToStaging, HostOp.submitQueue,
   HostOp.mapAsyncRead, HostOp.pollWait, HostOp.readMappedDebugData,
   HostOp.recordLastGeneration, HostOp.swapInstanceBuffers, HostOp.swapBindGroups]

/-- The host operations performed by one call of `update`: the tick body runs
iff the scheduler condition holds (line 770), otherwise nothing happens. -/
def updateOps (gd : ℚ) (s : SchedulerState) (now : ℚ) (num_instances : ℕ) : List HostOp :=
  if s.last_generation + gd < now then tickOps num_instances else []

/-! ### Initialization (`InstanceApp::new`) -/

/-- The fields of `InstanceApp` relevant to the verified claims (lines 234-251):
the instance count, the spring list and the generation interval. -/
structure InstanceAppState where
  num_instances : ℕ
  springs : List Spring
  generation_duration : ℚ

/-- The fields of `InstanceApp` relevant to the verified claims, as set by
`InstanceApp::new` (lines 316-759): `num_instances = instances.len()`
(line 330) for the `GRID_SIZE × GRID_SIZE` grid with spacing `0.002` and
displacement `1.0` (lines 318-326), the spring list (line 341), and
`generation_duration = 1.6 ms` (line 750). -/
noncomputable def appStateOf (grid_size : ℕ) : InstanceAppState :=
  { num_instances := (generate_grid_instances grid_size grid_size (1 / 500) 1).length,
    springs := generate_springs grid_size (1 / 500),
    generation_duration := 1600 / 1000000 }

/-- `InstanceApp::new` (lines 316-759) parameterized by the grid size it
hard-codes as `GRID_SIZE`. It contains no validation whatsoever — in
particular no check that the particle count is a multiple of
`WORKGROUP_SIZE` — so it always succeeds. -/
noncomputable def instanceAppNew (grid_size : ℕ) : Except String InstanceAppState :=
  Except.ok (appStateOf grid_size)

/-- The workgroup count passed to `dispatch_workgroups` (line 783): truncating
integer division. -/
def dispatched_workgroups (num_instances : ℕ) : ℕ := num_instances / WORKGROUP_SIZE

/-- Modelled from the spec: `compute.wgsl` is not under `src/`; per §4.4 and
the glossary, each dispatched workgroup processes `WORKGROUP_SIZE` particles
(one kernel invocation per particle), so one dispatch covers
`dispatched_workgroups * WORKGROUP_SIZE` particles. -/
def dispatchedParticles (num_instances : ℕ) : ℕ :=
  dispatched_workgroups num_instances * WORKGROUP_SIZE

/-! ### Spec-side formalizations (stated from the spec text, for comparison
with the source-derived definitions above) -/

/-- Spec §5/§9 wording: the default tick path performs no synchronous wait. -/
def nonBlockingDefaultTick : Prop :=
  HostOp.pollWait ∉ tickOps (appStateOf GRID_SIZE).num_instances

/-- Spec §7/§4.3 wording: a particle count that is not an exact multiple of the
workgroup size is detected at initialization and is fatal. -/
def failFastOnWorkgroupMismatch : Prop :=
  ∀ g : ℕ, ¬ (WORKGROUP_SIZE ∣ (appStateOf g).num_instances) →
    (instanceAppNew g).isOk = false

/-- Spec §4.1 wording: the particle grid is centered at the origin in the two
horizontal axes (x and z); read as: the centroid of the generated positions
lies at the origin in those axes. -/
def centeredAtOrigin (l : List Instance) : Prop :=
  ((l.map fun p => p.position.x).sum = 0) ∧ ((l.map fun p => p.position.z).sum = 0)

/-! ## Claim theorems -/

/-- C1: for every grid size N ≥ 2 and every spacing, `generate_springs`
produces exactly `2·N·(N−1)` structural springs (stiffness 1000),
`2·(N−1)²` shear springs (stiffness 800) and `2·N·(N−2)` bend springs
(stiffness 500, zero when N < 3), and the total list length is the sum of the
three counts. -/
theorem c1_spring_census (N : ℕ) (hN : 2 ≤ N) (s : ℝ) :
    countStiffness 1000 (generate_springs N s) = 2 * N * (N - 1)
    ∧ countStiffness 800 (generate_springs N s) = 2 * (N - 1) ^ 2
    ∧ countStiffness 500 (generate_springs N s) = 2 * N * (N - 2)
    ∧ (generate_springs N s).length
        = 2 * N * (N - 1) + 2 * (N - 1) ^ 2 + 2 * N * (N - 2) :=
  ⟨countStiffness_structural N s, countStiffness_shear N s, countStiffness_bend N s,
   length_generate_springs N s⟩

/-- Witness for C1 at the concrete grid size 2 and spacing 1. -/
theorem c1_spring_census_witness :
    2 ≤ 2
    ∧ (countStiffness 1000 (generate_springs 2 1) = 2 * 2 * (2 - 1)
      ∧ countStiffness 800 (generate_springs 2 1) = 2 * (2 - 1) ^ 2
      ∧ countStiffness 500 (generate_springs 2 1) = 2 * 2 * (2 - 2)
      ∧ (generate_springs 2 1).length
          = 2 * 2 * (2 - 1) + 2 * (2 - 1) ^ 2 + 2 * 2 * (2 - 2)) :=
  ⟨by decide, c1_spring_census 2 (by decide) 1⟩

/-- C2: in every well-formed buffer-role state — established by `new` and
preserved by every tick — the pre-tick render source (`instance_buffer[0]`,
the "current" buffer) is exactly the kernel's read source (binding 0 of
`bind_group[0]`) and is never the kernel's write target (binding 1); and the
single post-dispatch swap of `instance_buffer` and `bind_group` makes the
just-written buffer simultaneously the new render source and the next
dispatch's read source. -/
theorem c2_buffer_roles (s : GpuState) (h : WFGpu s) :
    kernelReadRes s = Res.instanceRes (renderSource s)
    ∧ kernelWriteRes s ≠ Res.instanceRes (renderSource s)
    ∧ Res.instanceRes (renderSource (tickSwap s)) = kernelWriteRes s
    ∧ kernelReadRes (tickSwap s) = kernelWriteRes s
    ∧ WFGpu (tickSwap s)
    ∧ WFGpu initGpuState := by
  obtain ⟨⟨b0, b1⟩, ⟨g0, g1⟩⟩ := s
  obtain ⟨h1, h2, h3⟩ := h
  dsimp only at h1 h2 h3
  subst h1
  subst h2
  cases b0 <;> cases b1 <;> revert h3 <;> decide

/-- Witness for C2 at the initial state created by `new`. -/
theorem c2_buffer_roles_witness :
    WFGpu initGpuState
    ∧ (kernelReadRes initGpuState = Res.instanceRes (renderSource initGpuState)
      ∧ kernelWriteRes initGpuState ≠ Res.instanceRes (renderSource initGpuState)
      ∧ Res.instanceRes (renderSource (tickSwap initGpuState)) = kernelWriteRes initGpuState
      ∧ kernelReadRes (tickSwap initGpuState) = kernelWriteRes initGpuState
      ∧ WFGpu (tickSwap initGpuState)
      ∧ WFGpu initGpuState) :=
  ⟨by decide, c2_buffer_roles initGpuState (by decide)⟩

/-- C3: scheduler cadence. Along any sequence of `update` calls, the dispatch
times form a chain in which each dispatch occurs strictly more than the
generation interval after the previous one (and the first strictly more than
the interval after the initial `last_generation`), the dispatch times are a
subsequence of the call times, a call dispatches exactly when the elapsed time
since the last completed tick exceeds the interval, and a dispatching call
resets `last_generation` to the current time. -/
theorem c3_scheduler_cadence (gd : ℚ) (s : SchedulerState) (calls : List ℚ) :
    List.Chain (fun a b => a + gd < b) s.last_generation (dispatchTimes gd s calls)
    ∧ List.Sublist (dispatchTimes gd s calls) calls
    ∧ (∀ t now, (updateStep gd t now).2 = true ↔ t.last_generation + gd < now)
    ∧ (∀ t now, (updateStep gd t now).2 = true →
        (updateStep gd t now).1.last_generation = now) := by
  refine ⟨dispatchTimes_chain gd s calls, dispatchTimes_sublist gd s calls, ?_, ?_⟩
  · intro t now
    unfold updateStep
    split <;> simp_all
  · intro t now h
    unfold updateStep at h ⊢
    split at h <;> simp_all

lemma appStateOf_num_instances (g : ℕ) : (appStateOf g).num_instances = g * g := by
  unfold appStateOf
  exact length_generate_grid_instances g g (1 / 500) 1

/-- C4 counterexample: the tick path of `update` performs the synchronous
device wait (`poll(Maintain::Wait)`, line 808) unconditionally — in
particular with the shipped particle count it does — so the claim's
"the default tick path is non-blocking on the host" is false; there is no
diagnostics-enabled flag anywhere in `InstanceApp`. -/
theorem c4_counterexample :
    HostOp.pollWait ∈ tickOps (appStateOf GRID_SIZE).num_instances
    ∧ ¬ nonBlockingDefaultTick := by
  constructor
  · simp [tickOps]
  · intro h
    exact h (by simp [tickOps])

/-- C4 amended: every tick of `update` unconditionally issues the diagnostic
staging copy, the asynchronous map request and the synchronous wait for device
completion, besides the kernel dispatch; an `update` call either performs this
full (host-blocking) tick op list or does nothing at all. There is no
diagnostics configuration flag. -/
theorem c4_tick_always_blocks (gd : ℚ) (t : SchedulerState) (now : ℚ) (n : ℕ) :
    HostOp.pollWait ∈ tickOps n
    ∧ HostOp.mapAsyncRead ∈ tickOps n
    ∧ HostOp.copyDebugToStaging ∈ tickOps n
    ∧ HostOp.dispatchWorkgroups (n / WORKGROUP_SIZE) 1 1 ∈ tickOps n
    ∧ (updateOps gd t now n = tickOps n ∨ updateOps gd t now n = []) := by
  refine ⟨by simp [tickOps], by simp [tickOps], by simp [tickOps], by simp [tickOps], ?_⟩
  unfold updateOps
  split
  · exact Or.inl rfl
  · exact Or.inr rfl

/-- C5 counterexample: with grid size 3 the particle count is 9, which is not
a multiple of `WORKGROUP_SIZE = 64`; `InstanceApp::new` still succeeds (it
contains no divisibility check), and the dispatch count `9 / 64 = 0` silently
rounds down, covering 0 of the 9 particles — so the claimed fail-fast
behaviour (`failFastOnWorkgroupMismatch`) is false. -/
theorem c5_counterexample :
    (instanceAppNew 3).isOk = true
    ∧ (appStateOf 3).num_instances = 9
    ∧ ¬ (WORKGROUP_SIZE ∣ (appStateOf 3).num_instances)
    ∧ dispatchedParticles (appStateOf 3).num_instances = 0
    ∧ ¬ failFastOnWorkgroupMismatch := by
  have h9 : (appStateOf 3).num_instances = 9 := by
    rw [appStateOf_num_instances]
  refine ⟨rfl, h9, ?_, ?_, ?_⟩
  · rw [h9]
    decide
  · rw [h9]
    decide
  · intro hf
    have h2 := hf 3 (by rw [h9]; decide)
    simp [instanceAppNew, Except.isOk, Except.toBool] at h2

/-- C5 amended: initialization performs no particle-count validation —
`InstanceApp::new` succeeds for every grid size — and the scheduler's dispatch
count is the silently truncating division `num_instances / WORKGROUP_SIZE`, so
one dispatch covers `num_instances - num_instances % WORKGROUP_SIZE`
particles, a strict subset whenever the count is not an exact multiple. In the
shipped configuration (`GRID_SIZE = 64`, 4096 particles) the division happens
to be exact, so every particle is covered. -/
theorem c5_no_validation_truncating_dispatch (g : ℕ) :
    (instanceAppNew g).isOk = true
    ∧ dispatchedParticles (appStateOf g).num_instances
        = (appStateOf g).num_instances - (appStateOf g).num_instances % WORKGROUP_SIZE
    ∧ (appStateOf GRID_SIZE).num_instances % WORKGROUP_SIZE = 0
    ∧ dispatchedParticles (appStateOf GRID_SIZE).num_instances
        = (appStateOf GRID_SIZE).num_instances := by
  refine ⟨rfl, ?_, ?_, ?_⟩
  · unfold dispatchedParticles dispatched_workgroups WORKGROUP_SIZE
    omega
  · rw [appStateOf_num_instances]
    decide
  · rw [appStateOf_num_instances]
    unfold dispatchedParticles dispatched_workgroups WORKGROUP_SIZE GRID_SIZE
    decide

/-- C6 counterexample: for a 2×2 grid with spacing 1 the generated x
coordinates are −1 and 0 in each row, so the x centroid is −1/2, not 0: the
grid produced by `generate_grid` is not centered at the origin. -/
theorem c6_counterexample : ¬ centeredAtOrigin (generate_grid_instances 2 2 1 0) := by
  intro h
  have hx := h.1
  rw [x_sum_generate_grid] at hx
  norm_num at hx

/-- C6 amended: `generate_grid` produces exactly `rows·cols` particles
(`grid_size²` in the square configuration used); every particle has zero
initial velocity and lies in the horizontal plane at height `displacement`
(with the unused fourth coordinates zero), at
`x = (col − cols/2)·spacing`, `z = (row − rows/2)·spacing`; the horizontal
centroid of the grid is at `−spacing/2` per axis (x-coordinate sum
`rows·cols·(−spacing/2)`), i.e. the grid is offset half a cell from the
origin rather than exactly centered on it. -/
theorem c6_grid_geometry (rows cols : ℕ) (s d : ℝ) :
    (generate_grid_instances rows cols s d).length = rows * cols
    ∧ (∀ p ∈ generate_grid_instances rows cols s d,
        p.speed = { x := 0, y := 0, z := 0, w := 0 }
        ∧ p.position.y = d ∧ p.position.w = 0
        ∧ ∃ row col, row < rows ∧ col < cols
            ∧ p.position.x = ((col : ℝ) - (cols : ℝ) / 2) * s
            ∧ p.position.z = ((row : ℝ) - (rows : ℝ) / 2) * s)
    ∧ ((generate_grid_instances rows cols s d).map fun p => p.position.x).sum
        = (rows : ℝ) * ((cols : ℝ) * (-(s / 2))) := by
  refine ⟨length_generate_grid_instances rows cols s d, ?_,
    x_sum_generate_grid rows cols s d⟩
  intro p hp
  rw [mem_generate_grid_instances] at hp
  obtain ⟨row, hr, col, hc, rfl⟩ := hp
  exact ⟨rfl, rfl, rfl, row, col, hr, hc, rfl, rfl⟩

/-- Witness for C6 (amended) at the first particle of the 2×2 grid with
spacing 1 and displacement 0. -/
theorem c6_grid_geometry_witness :
    ((⟨⟨-1, 0, -1, 0⟩, ⟨0, 0, 0, 0⟩⟩ : Instance) ∈ generate_grid_instances 2 2 1 0)
    ∧ ((⟨⟨-1, 0, -1, 0⟩, ⟨0, 0, 0, 0⟩⟩ : Instance).speed = { x := 0, y := 0, z := 0, w := 0 }
      ∧ (⟨⟨-1, 0, -1, 0⟩, ⟨0, 0, 0, 0⟩⟩ : Instance).position.y = 0
      ∧ (⟨⟨-1, 0, -1, 0⟩, ⟨0, 0, 0, 0⟩⟩ : Instance).position.w = 0
      ∧ ∃ row col : ℕ, row < 2 ∧ col < 2
          ∧ (⟨⟨-1, 0, -1, 0⟩, ⟨0, 0, 0, 0⟩⟩ : Instance).position.x
              = ((col : ℝ) - ((2 : ℕ) : ℝ) / 2) * 1
          ∧ (⟨⟨-1, 0, -1, 0⟩, ⟨0, 0, 0, 0⟩⟩ : Instance).position.z
              = ((row : ℝ) - ((2 : ℕ) : ℝ) / 2) * 1) := by
  have hmem : (⟨⟨-1, 0, -1, 0⟩, ⟨0, 0, 0, 0⟩⟩ : Instance)
      ∈ generate_grid_instances 2 2 1 0 := by
    rw [mem_generate_grid_instances]
    refine ⟨0, by norm_num, 0, by norm_num, ?_⟩
    norm_num [Instance.mk.injEq, Vec4.mk.injEq]
  exact ⟨hmem, (c6_grid_geometry 2 2 1 0).2.1 _ hmem⟩

/-- C7: topology generation is deterministic. In the embedding the generators
are pure functions of `(grid_size, spacing)` (and the grid parameters), so two
invocations with identical parameters yield identical spring lists and
identical particle lists; moreover the two particle-state copies returned by
`generate_grid` to seed the two instance buffers are equal as lists, hence
element-wise equal. -/
theorem c7_deterministic_generation (N rows cols : ℕ) (s d : ℝ) :
    generate_springs N s = generate_springs N s
    ∧ generate_structural_springs N s = generate_structural_springs N s
    ∧ generate_grid_instances rows cols s d = generate_grid_instances rows cols s d
    ∧ (generate_grid_instance_pair rows cols s d).1
        = (generate_grid_instance_pair rows cols s d).2 :=
  ⟨rfl, rfl, rfl, rfl⟩

/-- The horizontal structural spring of the cell `(0,0)` of the 2×2 grid with
spacing 1, used as the concrete member in the witnesses below. -/
lemma head_spring_mem : Spring.mk 1000 1 0 1 ∈ generate_springs 2 1 := by
  rw [mem_generate_springs]
  refine ⟨0, by norm_num, 0, by norm_num, Or.inl ⟨by norm_num, ?_⟩⟩
  norm_num [spH, Spring.mk.injEq]

/-- C8: every spring produced by `generate_springs` belongs to one of the three
classes — structural with rest length `spacing`, shear with rest length
`spacing·√2`, bend with rest length `2·spacing` — identified by the pairwise
distinct stiffness constants 1000, 800 and 500. -/
theorem c8_spring_rest_lengths (N : ℕ) (s : ℝ) (sp : Spring)
    (h : sp ∈ generate_springs N s) :
    ((sp.stiffness = 1000 ∧ sp.rest_length = s)
      ∨ (sp.stiffness = 800 ∧ sp.rest_length = s * Real.sqrt 2)
      ∨ (sp.stiffness = 500 ∧ sp.rest_length = s * 2))
    ∧ (1000 : ℝ) ≠ 800 ∧ (1000 : ℝ) ≠ 500 ∧ (800 : ℝ) ≠ 500 :=
  ⟨generate_springs_classes h, by norm_num, by norm_num, by norm_num⟩

/-- Witness for C8 at the concrete structural spring `(0,1)` of the 2×2 grid
with spacing 1. -/
theorem c8_spring_rest_lengths_witness :
    (Spring.mk 1000 1 0 1 ∈ generate_springs 2 1)
    ∧ ((((Spring.mk 1000 1 0 1).stiffness = 1000 ∧ (Spring.mk 1000 1 0 1).rest_length = 1)
        ∨ ((Spring.mk 1000 1 0 1).stiffness = 800
            ∧ (Spring.mk 1000 1 0 1).rest_length = 1 * Real.sqrt 2)
        ∨ ((Spring.mk 1000 1 0 1).stiffness = 500
            ∧ (Spring.mk 1000 1 0 1).rest_length = 1 * 2))
      ∧ (1000 : ℝ) ≠ 800 ∧ (1000 : ℝ) ≠ 500 ∧ (800 : ℝ) ≠ 500) :=
  ⟨head_spring_mem, c8_spring_rest_lengths 2 1 (Spring.mk 1000 1 0 1) head_spring_mem⟩

/-- C9: for every grid size N ≥ 2, both endpoint indices of every spring in
`generate_springs N spacing` are strictly less than N². -/
theorem c9_endpoints_in_grid (N : ℕ) (hN : 2 ≤ N) (s : ℝ) (sp : Spring)
    (h : sp ∈ generate_springs N s) :
    sp.instance_a < N ^ 2 ∧ sp.instance_b < N ^ 2 := by
  have hb := generate_springs_endpoints h
  rw [pow_two]
  exact ⟨hb.1, hb.2.1⟩

/-- Witness for C9 at the concrete structural spring `(0,1)` of the 2×2 grid
with spacing 1. -/
theorem c9_endpoints_in_grid_witness :
    2 ≤ 2
    ∧ (Spring.mk 1000 1 0 1 ∈ generate_springs 2 1)
    ∧ ((Spring.mk 1000 1 0 1).instance_a < 2 ^ 2
        ∧ (Spring.mk 1000 1 0 1).instance_b < 2 ^ 2) :=
  ⟨by decide, head_spring_mem,
   c9_endpoints_in_grid 2 (by decide) 1 (Spring.mk 1000 1 0 1) head_spring_mem⟩

/-- C10: every spring emitted by `generate_springs` and by
`generate_structural_springs` satisfies `instance_a < instance_b` — so no
spring is a self-loop and every undirected edge is stored in one normalized
orientation — and the list of `(instance_a, instance_b)` endpoint pairs of
each generator contains no duplicate, so no unordered particle pair appears
twice. -/
theorem c10_normalized_edges (N : ℕ) (hN : 2 ≤ N) (s : ℝ) :
    (∀ sp ∈ generate_springs N s, sp.instance_a < sp.instance_b)
    ∧ (∀ sp ∈ generate_structural_springs N s, sp.instance_a < sp.instance_b)
    ∧ (springPairs (generate_springs N s)).Nodup
    ∧ (springPairs (generate_structural_springs N s)).Nodup :=
  ⟨fun _ h => (generate_springs_endpoints h).2.2,
   fun _ h => generate_structural_springs_ab h,
   springPairs_generate_springs_nodup N s,
   springPairs_generate_structural_springs_nodup N s⟩

/-- Witness for C10 at grid size 2 and spacing 1, instantiated at the concrete
structural spring `(0,1)`. -/
theorem c10_normalized_edges_witness :
    2 ≤ 2
    ∧ (Spring.mk 1000 1 0 1 ∈ generate_springs 2 1)
    ∧ (Spring.mk 1000 1 0 1).instance_a < (Spring.mk 1000 1 0 1).instance_b
    ∧ (springPairs (generate_springs 2 1)).Nodup :=
  ⟨by decide, head_spring_mem,
   (c10_normalized_edges 2 (by decide) 1).1 (Spring.mk 1000 1 0 1) head_spring_mem,
   (c10_normalized_edges 2 (by decide) 1).2.2.1⟩
